import Mathlib

/-!
Verification of the review/rating subsystem (`app/routers/reviews.py`,
`app/models/reviews.py`) and the payment initiator (`app/payments.py`)
of the store_fastapi repository, as a shallow embedding in Lean 4.

Database rows are modelled as structures holding exactly the columns the
routers read or write; the stored state is a pair of row lists.  Each
router handler becomes a pure function from the state (plus the inputs
the framework injects: current user, fresh primary key, clock) to an
`Except`-style result together with the successor state.  SQL `AVG` over
the selected grades is `avgOrZero` (`NULL` coalesced to `0.0` by
`result.scalar() or 0.0` in the source).  The SQLAlchemy session runs
with autoflush on, so the `AVG` query issued inside `create_review`
(resp. `delete_review`) sees the just-added review row (resp. the
just-flipped `is_active` flag); the embedding therefore computes the
average over the already-updated review list.  Ratings are exact
rationals: the grades are integers and PostgreSQL's `avg` over integers
is exact.
-/

/-- A row of the `reviews` table (`app/models/reviews.py`): id, author,
product, optional comment, creation timestamp (modelled as a natural
number), integer grade and the soft-deletion flag `is_active`
(default `True`). -/
structure Review where
  id : Nat
  user_id : Nat
  product_id : Nat
  comment : Option String
  comment_date : Nat
  grade : Int
  is_active : Bool
deriving DecidableEq, Repr

/-- The columns of the `products` table that the reviews router reads or
writes: the primary key, the `is_active` flag and the derived `rating`
field. -/
structure Product where
  id : Nat
  is_active : Bool
  rating : Rat
deriving DecidableEq, Repr

/-- The columns of the `users` table the reviews router reads: the
primary key of the authenticated caller and their role string
(`"admin"` grants deletion rights over foreign reviews). -/
structure User where
  id : Nat
  role : String
deriving DecidableEq, Repr

/-- Modelled from the spec: the request body schema `ReviewCreate`
(`app/schemas.py` is not part of the reviewed sources).  The router
dereferences `comment.product_id` and splats the remaining fields into
the `Review` model, so the schema carries the target product id, the
integer grade and the optional free-text comment. -/
structure ReviewCreate where
  product_id : Nat
  grade : Int
  comment : Option String
deriving DecidableEq, Repr

/-- The stored state visible to the reviews router: the `reviews` and
`products` tables. -/
structure DB where
  reviews : List Review
  products : List Product
deriving DecidableEq, Repr

/-- The error outcomes the reviews router raises via `HTTPException`:
`notFound` is status 404, `forbidden` is status 403. -/
inductive Err where
  | notFound
  | forbidden
deriving DecidableEq, Repr

/-- The query `select(Product).where(Product.id == pid, Product.is_active
== True)` followed by `.first()`. -/
def findActiveProduct (db : DB) (pid : Nat) : Option Product :=
  (db.products.filter (fun p => p.id == pid && p.is_active)).head?

/-- The query `select(Review).where(Review.id == rid, Review.is_active ==
True)` followed by `.first()`. -/
def findActiveReview (db : DB) (rid : Nat) : Option Review :=
  (db.reviews.filter (fun r => r.id == rid && r.is_active)).head?

/-- The grades selected by `select(func.avg(Review.grade)).where(
Review.product_id == pid, Review.is_active == True)`. -/
def activeGrades (reviews : List Review) (pid : Nat) : List Int :=
  (reviews.filter (fun r => r.product_id == pid && r.is_active)).map (fun r => r.grade)

/-- The arithmetic mean of a list of grades, as the spec states it. -/
def meanOf (gs : List Int) : Rat :=
  (gs.sum : Rat) / (gs.length : Rat)

/-- The value `result.scalar() or 0.0` computed by both handlers: SQL
`AVG` returns `NULL` (coalesced to `0.0`) when no row matches, and the
exact mean of the selected grades otherwise. -/
def avgOrZero (reviews : List Review) (pid : Nat) : Rat :=
  let gs := activeGrades reviews pid
  if gs.isEmpty then 0 else (gs.sum : Rat) / (gs.length : Rat)

/-- The assignment `product.rating = avg_rating` performed on the row
fetched by `db.get(Product, pid)`: the product row with primary key
`pid` gets the new rating, every other row is untouched. -/
def setRating (products : List Product) (pid : Nat) (v : Rat) : List Product :=
  products.map (fun p => if p.id == pid then { p with rating := v } else p)

/-- The row `Review(**comment.model_dump(), user_id=current_user.id)`
constructed by `create_review`: a fresh primary key, the caller as
author, the schema fields, the column defaults `comment_date =
datetime.now()` and `is_active = True`. -/
def mkReviewRow (u : User) (c : ReviewCreate) (nid now : Nat) : Review :=
  { id := nid, user_id := u.id, product_id := c.product_id,
    comment := c.comment, comment_date := now, grade := c.grade,
    is_active := true }

/-- Handler `POST /reviews/` (`create_review` in
`app/routers/reviews.py`): 404 when the target product is missing or
inactive; otherwise the new review row is added, the average grade over
the product's active reviews (the new row included, thanks to
autoflush) is recomputed and written into the product's rating, and
both writes are committed together.  Returns the persisted review and
the successor state (the state is unchanged on error). -/
def create_review (db : DB) (current_user : User) (comment : ReviewCreate)
    (nid now : Nat) : Except Err Review × DB :=
  match findActiveProduct db comment.product_id with
  | none => (.error .notFound, db)
  | some _ =>
      let db_review := mkReviewRow current_user comment nid now
      let reviews' := db.reviews ++ [db_review]
      let avg_rating := avgOrZero reviews' comment.product_id
      (.ok db_review,
        { reviews := reviews',
          products := setRating db.products comment.product_id avg_rating })

/-- Handler `DELETE /reviews/{review_id}` (`delete_review` in
`app/routers/reviews.py`): 404 when no active review has this id; 403
when the caller is neither the author nor an admin; otherwise the row's
`is_active` flag is flipped to `False`, the average grade over the
product's remaining active reviews is recomputed (the flipped row
excluded, thanks to autoflush) and written into the product's rating,
and both writes are committed together.  Returns the success message
and the successor state (the state is unchanged on error). -/
def delete_review (db : DB) (current_user : User) (review_id : Nat) :
    Except Err String × DB :=
  match findActiveReview db review_id with
  | none => (.error .notFound, db)
  | some review =>
      if review.user_id != current_user.id && current_user.role != "admin" then
        (.error .forbidden, db)
      else
        let reviews' := db.reviews.map
          (fun r => if r.id == review_id then { r with is_active := false } else r)
        let avg_rating := avgOrZero reviews' review.product_id
        (.ok "Review deleted",
          { reviews := reviews',
            products := setRating db.products review.product_id avg_rating })

/-- Handler `GET /reviews/` (`get_all_reviews`): all reviews whose
`is_active` flag is true, with no condition on the product. -/
def get_all_reviews (db : DB) : List Review :=
  db.reviews.filter (fun r => r.is_active)

/-- Handler `GET /reviews/products/{product_id}/`
(`get_all_reviews_of_product`): 404 when the product is missing or
inactive, otherwise the active reviews of that product. -/
def get_all_reviews_of_product (db : DB) (product_id : Nat) :
    Except Err (List Review) :=
  match findActiveProduct db product_id with
  | none => .error .notFound
  | some _ =>
      .ok (db.reviews.filter (fun r => r.product_id == product_id && r.is_active))

/-!
Payment initiator (`app/payments.py`).  Monetary amounts are `Decimal`
values with at most two fractional digits (kopeck precision); the
embedding represents such an amount by its value in hundredths
(`amountCents`), so the f-string `f"{amount:.2f}"` becomes `fmt2`.  The
gateway (`Payment.create`, a blocking network call dispatched to a
thread) is a parameter `respond`, and the function's result carries the
list of gateway invocations actually performed (payload and idempotency
key of each), so that "no network call was attempted" is the statement
that this trace is empty.  The gateway credentials come from
`app/config.py` (not part of the reviewed sources); they are passed in
as `PaymentSettings`, an optional string being absent (`None`) or
present, and the Python truthiness test `not YOOKASSA_SHOP_ID` is
`pyFalsy`.
-/

/-- The configuration read from the environment: `YOOKASSA_SHOP_ID`,
`YOOKASSA_SECRET_KEY` (either may be unset or empty) and
`YOOKASSA_RETURN_URL`. -/
structure PaymentSettings where
  shop_id : Option String
  secret_key : Option String
  return_url : String
deriving DecidableEq, Repr

/-- Python truthiness test `not x` on an optional string: true exactly
when the value is unset (`None`) or the empty string. -/
def pyFalsy : Option String → Bool
  | none => true
  | some s => s == ""

/-- The f-string `f"{amount:.2f}"` on a kopeck-precision `Decimal`
amount given in hundredths: the integer part, a dot, and exactly two
fractional digits. -/
def fmt2 (cents : Nat) : String :=
  toString (cents / 100) ++ "." ++
    (if cents % 100 < 10 then "0" ++ toString (cents % 100)
     else toString (cents % 100))

/-- Python slice `s[:128]`: the first 128 characters of the string (the
whole string when it is shorter). -/
def pySlice128 (s : String) : String :=
  String.mk (s.toList.take 128)

/-- A money block of the payload: `value` (2-decimal string) and
`currency`. -/
structure Money where
  value : String
  currency : String
deriving DecidableEq, Repr

/-- The `confirmation` block: redirect type and the configured return
URL. -/
structure Confirmation where
  type : String
  return_url : String
deriving DecidableEq, Repr

/-- One receipt line item: truncated description, quantity string, its
own money block, VAT code, payment mode and payment subject. -/
structure ReceiptItem where
  description : String
  quantity : String
  amount : Money
  vat_code : Nat
  payment_mode : String
  payment_subject : String
deriving DecidableEq, Repr

/-- The fiscal `receipt` block: the payer email and the line items. -/
structure Receipt where
  customer_email : String
  items : List ReceiptItem
deriving DecidableEq, Repr

/-- The JSON payload built for `POST /v3/payments`. -/
structure PaymentPayload where
  amount : Money
  confirmation : Confirmation
  capture : Bool
  description : String
  metadata_order_id : Nat
  receipt : Receipt
deriving DecidableEq, Repr

/-- The dictionary literal `payload = { ... }` of
`create_yookassa_payment`, field for field. -/
def buildPayload (settings : PaymentSettings) (order_id : Nat)
    (amountCents : Nat) (user_email description : String) : PaymentPayload :=
  { amount := { value := fmt2 amountCents, currency := "RUB" },
    confirmation := { type := "redirect", return_url := settings.return_url },
    capture := true,
    description := description,
    metadata_order_id := order_id,
    receipt :=
      { customer_email := user_email,
        items :=
          [{ description := pySlice128 description,
             quantity := "1.00",
             amount := { value := fmt2 amountCents, currency := "RUB" },
             vat_code := 1,
             payment_mode := "full_prepayment",
             payment_subject := "commodity" }] } }

/-- The failure raised before anything else happens when credentials are
missing: `RuntimeError` on unset or empty shop id / secret key. -/
inductive PaymentError where
  | configuration
deriving DecidableEq, Repr

/-- What the gateway reports at creation time: payment id, status, and
the `confirmation.confirmation_url` attribute (possibly absent). -/
structure GatewayResponse where
  id : String
  status : String
  confirmation_url : Option String
deriving DecidableEq, Repr

/-- The dictionary returned to the caller: gateway payment id, status
and redirect URL. -/
structure PaymentResult where
  id : String
  status : String
  confirmation_url : Option String
deriving DecidableEq, Repr

/-- Modelled from the spec: `uuid4()` (standard library) generates a
fresh universally-unique random value on every call, so two distinct
calls never observe the same key; the supply of generated keys is
modelled as an injective function of the call number, each key a
non-empty string. -/
def uuid4Supply (n : Nat) : String :=
  String.mk (List.replicate (n + 1) 'u')

/-- The function `create_yookassa_payment` of `app/payments.py`: check
the credentials (raising a configuration error before the payload is
built and before any gateway call), build the payload, submit it to the
gateway with the idempotency key, and return the id / status /
confirmation URL triple.  The second component records every gateway
invocation (payload and idempotency key) performed by the call. -/
def create_yookassa_payment (respond : PaymentPayload → String → GatewayResponse)
    (settings : PaymentSettings) (order_id : Nat) (amountCents : Nat)
    (user_email description idem_key : String) :
    Except PaymentError PaymentResult × List (PaymentPayload × String) :=
  if pyFalsy settings.shop_id || pyFalsy settings.secret_key then
    (.error .configuration, [])
  else
    let payload := buildPayload settings order_id amountCents user_email description
    let payment := respond payload idem_key
    (.ok { id := payment.id, status := payment.status,
           confirmation_url := payment.confirmation_url },
     [(payload, idem_key)])

/-- The n-th in a sequence of calls to `create_yookassa_payment` with
the same inputs: the source passes `str(uuid4())` as the idempotency
key, so call number `n` draws the n-th key of the supply. -/
def nth_payment_call (respond : PaymentPayload → String → GatewayResponse)
    (settings : PaymentSettings) (order_id : Nat) (amountCents : Nat)
    (user_email description : String) (n : Nat) :
    Except PaymentError PaymentResult × List (PaymentPayload × String) :=
  create_yookassa_payment respond settings order_id amountCents
    user_email description (uuid4Supply n)

/-!
Concrete fixtures used to instantiate the theorems: a store with one
active product and no reviews, a store with one review, a store whose
product is inactive, and a stub gateway.
-/

/-- A store with a single active product (id 1, rating 0) and no
reviews. -/
def dbP : DB := ⟨[], [⟨1, true, 0⟩]⟩

/-- An authenticated buyer with id 1. -/
def uB : User := ⟨1, "buyer"⟩

/-- A store with one active grade-5 review (id 1, author 1) of the
single active product (id 1, rating 5). -/
def dbQ : DB := ⟨[⟨1, 1, 1, none, 0, 5, true⟩], [⟨1, true, 5⟩]⟩

/-- A store whose only product (id 1) is inactive while its grade-5
review is still active. -/
def dbI : DB := ⟨[⟨1, 1, 1, none, 0, 5, true⟩], [⟨1, false, 0⟩]⟩

/-- A store with no products and no reviews. -/
def dbEmpty : DB := ⟨[], []⟩

/-- A stub gateway answering every payment request with a pending
payment. -/
def respondStub : PaymentPayload → String → GatewayResponse :=
  fun _ _ => { id := "pay-1", status := "pending",
               confirmation_url := some "https://pay.example/redirect" }

/-- Fully configured gateway credentials. -/
def settingsOk : PaymentSettings :=
  ⟨some "shop-1", some "secret-1", "https://store.example/return"⟩

/-- Credentials with the shop id unset. -/
def settingsNoShop : PaymentSettings :=
  ⟨none, some "secret-1", "https://store.example/return"⟩

/-!
Helper lemmas shared by the claim theorems.
-/

/-- Every product row of `setRating ps pid v` whose id is `pid` carries
the freshly written rating `v`. -/
theorem setRating_rating (ps : List Product) (pid : Nat) (v : Rat) :
    ∀ p ∈ setRating ps pid v, p.id = pid → p.rating = v := by
  intro p hp hid
  simp only [setRating, List.mem_map] at hp
  obtain ⟨q, _, hfq⟩ := hp
  by_cases h : q.id = pid
  · simp only [h, beq_self_eq_true, if_true] at hfq
    exact hfq ▸ rfl
  · simp only [beq_eq_false_iff_ne.mpr h, Bool.false_eq_true, if_false] at hfq
    exact absurd (hfq ▸ hid) h

/-- Filtering distributes over the grades selection. -/
theorem activeGrades_append (xs ys : List Review) (pid : Nat) :
    activeGrades (xs ++ ys) pid = activeGrades xs pid ++ activeGrades ys pid := by
  simp [activeGrades, List.filter_append]

/-- When at least one active review of the product exists, the SQL
average is the arithmetic mean. -/
theorem avgOrZero_eq_meanOf (reviews : List Review) (pid : Nat)
    (h : activeGrades reviews pid ≠ []) :
    avgOrZero reviews pid = meanOf (activeGrades reviews pid) := by
  simp only [avgOrZero, meanOf, List.isEmpty_iff]
  rw [if_neg h]

/-- Characterization of the success path of `create_review`. -/
theorem create_review_ok {db : DB} {u : User} {c : ReviewCreate} {nid now : Nat}
    {r : Review} {db' : DB}
    (h : create_review db u c nid now = (.ok r, db')) :
    r = mkReviewRow u c nid now ∧
    db'.reviews = db.reviews ++ [mkReviewRow u c nid now] ∧
    db'.products = setRating db.products c.product_id (avgOrZero db'.reviews c.product_id) := by
  unfold create_review at h
  cases hfp : findActiveProduct db c.product_id with
  | none => rw [hfp] at h; simp at h
  | some p =>
      rw [hfp] at h
      simp only [Prod.mk.injEq, Except.ok.injEq] at h
      obtain ⟨hr, hdb⟩ := h
      subst hdb
      exact ⟨hr.symm, rfl, rfl⟩

/-- Characterization of the success path of `delete_review`. -/
theorem delete_review_ok {db : DB} {u : User} {rid : Nat} {m : String} {db' : DB}
    {rev : Review}
    (h : delete_review db u rid = (.ok m, db'))
    (hfr : findActiveReview db rid = some rev) :
    db'.reviews = db.reviews.map
      (fun r => if r.id == rid then { r with is_active := false } else r) ∧
    db'.products = setRating db.products rev.product_id
      (avgOrZero db'.reviews rev.product_id) := by
  unfold delete_review at h
  rw [hfr] at h
  dsimp only at h
  by_cases hperm : (rev.user_id != u.id && u.role != "admin") = true
  · rw [if_pos hperm] at h; simp at h
  · rw [if_neg hperm] at h
    simp only [Prod.mk.injEq, Except.ok.injEq] at h
    obtain ⟨_, hdb⟩ := h
    subst hdb
    exact ⟨rfl, rfl⟩

/-- C1: after every successful `create_review` or `delete_review`
affecting a product, the product's stored rating equals the arithmetic
mean of the grades over exactly its active reviews in the resulting
state (the just-created review counted, a just-soft-deleted one
excluded); concretely, a product with active grades [4, 2] has rating
3, and soft-deleting the grade-2 review recomputes it to 4. -/
theorem c1_rating_is_mean_of_active_grades :
    (∀ (db : DB) (u : User) (c : ReviewCreate) (nid now : Nat) (r : Review) (db' : DB),
        create_review db u c nid now = (.ok r, db') →
        ∀ p ∈ db'.products, p.id = c.product_id →
          p.rating = meanOf (activeGrades db'.reviews c.product_id)) ∧
    (∀ (db : DB) (u : User) (rid : Nat) (m : String) (db' : DB) (rev : Review),
        delete_review db u rid = (.ok m, db') →
        findActiveReview db rid = some rev →
        activeGrades db'.reviews rev.product_id ≠ [] →
        ∀ p ∈ db'.products, p.id = rev.product_id →
          p.rating = meanOf (activeGrades db'.reviews rev.product_id)) ∧
    (create_review (create_review dbP uB ⟨1, 4, none⟩ 1 0).2 uB ⟨1, 2, none⟩ 2 0).2.products
        = [⟨1, true, 3⟩] ∧
    (delete_review
        (create_review (create_review dbP uB ⟨1, 4, none⟩ 1 0).2 uB ⟨1, 2, none⟩ 2 0).2
        uB 2).2.products
        = [⟨1, true, 4⟩] := by
  refine ⟨?_, ?_, ?_, ?_⟩
  · intro db u c nid now r db' h p hp hpid
    obtain ⟨-, hrev, hprod⟩ := create_review_ok h
    have hne : activeGrades db'.reviews c.product_id ≠ [] := by
      rw [hrev, activeGrades_append]
      simp [activeGrades, mkReviewRow]
    have hr := setRating_rating db.products c.product_id _ p (hprod ▸ hp) hpid
    rw [hr, avgOrZero_eq_meanOf _ _ hne]
  · intro db u rid m db' rev h hfr hne p hp hpid
    obtain ⟨hrev, hprod⟩ := delete_review_ok h hfr
    have hr := setRating_rating db.products rev.product_id _ p (hprod ▸ hp) hpid
    rw [hr, avgOrZero_eq_meanOf _ _ hne]
  · simp [create_review, findActiveProduct, avgOrZero, activeGrades, mkReviewRow,
      setRating, dbP, uB]
    norm_num
  · simp [create_review, delete_review, findActiveProduct, findActiveReview, avgOrZero,
      activeGrades, mkReviewRow, setRating, dbP, uB]

/-- Witness for C1: creating a grade-4 review on the fresh store gives
the product rating 4, the mean of its single active grade. -/
theorem c1_rating_is_mean_of_active_grades_witness :
    (Product.mk 1 true 4).rating = meanOf (activeGrades [Review.mk 1 1 1 none 0 4 true] 1) :=
  c1_rating_is_mean_of_active_grades.1 dbP uB ⟨1, 4, none⟩ 1 0
    (Review.mk 1 1 1 none 0 4 true)
    (DB.mk [Review.mk 1 1 1 none 0 4 true] [Product.mk 1 true 4])
    (by simp [create_review, findActiveProduct, avgOrZero, activeGrades, mkReviewRow,
          setRating, dbP, uB])
    (Product.mk 1 true 4) (by simp) rfl

/-- C2: when a product has no active review left — in particular right
after its last active review was soft-deleted — the aggregation step
computes and persists the rating 0 (a value, not an absence and not an
error). -/
theorem c2_zero_active_reviews_zero_rating :
    (∀ (reviews : List Review) (pid : Nat),
        activeGrades reviews pid = [] → avgOrZero reviews pid = 0) ∧
    (∀ (db : DB) (u : User) (rid : Nat) (m : String) (db' : DB) (rev : Review),
        delete_review db u rid = (.ok m, db') →
        findActiveReview db rid = some rev →
        activeGrades db'.reviews rev.product_id = [] →
        ∀ p ∈ db'.products, p.id = rev.product_id → p.rating = 0) := by
  constructor
  · intro reviews pid h
    simp [avgOrZero, h]
  · intro db u rid m db' rev h hfr hempty p hp hpid
    obtain ⟨hrev, hprod⟩ := delete_review_ok h hfr
    have hr := setRating_rating db.products rev.product_id _ p (hprod ▸ hp) hpid
    rw [hr]
    simp [avgOrZero, hempty]

/-- Witness for C2: soft-deleting the only review of product 1 leaves
it with rating 0. -/
theorem c2_zero_active_reviews_zero_rating_witness :
    avgOrZero [] 1 = 0 ∧ (Product.mk 1 true 0).rating = 0 :=
  ⟨c2_zero_active_reviews_zero_rating.1 [] 1 rfl,
   c2_zero_active_reviews_zero_rating.2 dbQ uB 1 "Review deleted"
     (DB.mk [Review.mk 1 1 1 none 0 5 false] [Product.mk 1 true 0])
     (Review.mk 1 1 1 none 0 5 true)
     (by simp [delete_review, findActiveReview, avgOrZero, activeGrades, setRating, dbQ, uB])
     rfl rfl
     (Product.mk 1 true 0) (by simp) rfl⟩

/-- C3: creating a review for a product that does not exist or is not
active fails with NotFound and leaves the stored state — reviews and
ratings — exactly as it was. -/
theorem c3_create_review_missing_product :
    ∀ (db : DB) (u : User) (c : ReviewCreate) (nid now : Nat),
      findActiveProduct db c.product_id = none →
      create_review db u c nid now = (.error .notFound, db) := by
  intro db u c nid now h
  unfold create_review
  rw [h]

/-- Witness for C3: creating a review in the empty store 404s and the
state is untouched. -/
theorem c3_create_review_missing_product_witness :
    create_review dbEmpty uB ⟨1, 4, none⟩ 1 0 = (.error .notFound, dbEmpty) :=
  c3_create_review_missing_product dbEmpty uB ⟨1, 4, none⟩ 1 0 rfl

/-- C4: deleting a review that does not exist or is inactive fails with
NotFound; deleting someone else's review without the admin role fails
with Forbidden, leaving the review row (its active flag included) and
every product rating unchanged. -/
theorem c4_delete_review_guards :
    (∀ (db : DB) (u : User) (rid : Nat),
        findActiveReview db rid = none →
        delete_review db u rid = (.error .notFound, db)) ∧
    (∀ (db : DB) (u : User) (rid : Nat) (rev : Review),
        findActiveReview db rid = some rev →
        rev.user_id ≠ u.id → u.role ≠ "admin" →
        delete_review db u rid = (.error .forbidden, db)) := by
  constructor
  · intro db u rid h
    unfold delete_review
    rw [h]
  · intro db u rid rev hfr hne hrole
    unfold delete_review
    rw [hfr]
    dsimp only
    have hcond : (rev.user_id != u.id && u.role != "admin") = true := by
      simp only [Bool.and_eq_true, bne_iff_ne, ne_eq]
      exact ⟨hne, hrole⟩
    rw [if_pos hcond]

/-- Witness for C4: deleting from the empty store 404s; user 2 (not an
admin) deleting user 1's review 403s with the state untouched. -/
theorem c4_delete_review_guards_witness :
    delete_review dbEmpty uB 1 = (.error .notFound, dbEmpty) ∧
    delete_review dbQ ⟨2, "buyer"⟩ 1 = (.error .forbidden, dbQ) :=
  ⟨c4_delete_review_guards.1 dbEmpty uB 1 rfl,
   c4_delete_review_guards.2 dbQ ⟨2, "buyer"⟩ 1 (Review.mk 1 1 1 none 0 5 true)
     rfl (by decide) (by decide)⟩

/-- After flipping the `is_active` flag of every row with id `rid`, any
still-active row has a different id. -/
theorem mapped_active_ne (xs : List Review) (rid : Nat) :
    ∀ r' ∈ xs.map (fun r => if r.id == rid then { r with is_active := false } else r),
      r'.is_active = true → r'.id ≠ rid := by
  intro r' hr' hact
  simp only [List.mem_map] at hr'
  obtain ⟨q, _, hfq⟩ := hr'
  by_cases h : q.id = rid
  · rw [if_pos (by simp [h])] at hfq
    rw [← hfq] at hact
    simp at hact
  · rw [if_neg (by simp [h])] at hfq
    rw [← hfq]
    simpa using h

/-- C5: a successful soft delete never removes a row: the review count
is preserved, every other row survives verbatim, the target row
survives with only its active flag flipped (id, author, product,
comment, date and grade intact), and no row with the deleted id appears
in the global or per-product active listings. -/
theorem c5_soft_delete_preserves_rows :
    ∀ (db : DB) (u : User) (rid : Nat) (m : String) (db' : DB),
      delete_review db u rid = (.ok m, db') →
      db'.reviews.length = db.reviews.length ∧
      (∀ r ∈ db.reviews, r.id ≠ rid → r ∈ db'.reviews) ∧
      (∀ r ∈ db.reviews, r.id = rid → { r with is_active := false } ∈ db'.reviews) ∧
      (∀ r ∈ get_all_reviews db', r.id ≠ rid) ∧
      (∀ (pid : Nat) (l : List Review),
          get_all_reviews_of_product db' pid = .ok l → ∀ r ∈ l, r.id ≠ rid) := by
  intro db u rid m db' h
  cases hfr : findActiveReview db rid with
  | none =>
      unfold delete_review at h
      rw [hfr] at h
      simp at h
  | some rev =>
      obtain ⟨hrev, -⟩ := delete_review_ok h hfr
      refine ⟨by simp [hrev], ?_, ?_, ?_, ?_⟩
      · intro r hr hid
        rw [hrev]
        exact List.mem_map.mpr ⟨r, hr, by simp [hid]⟩
      · intro r hr hid
        rw [hrev]
        exact List.mem_map.mpr ⟨r, hr, by simp [hid]⟩
      · intro r hr
        unfold get_all_reviews at hr
        rw [hrev] at hr
        obtain ⟨hmem, hact⟩ := List.mem_filter.mp hr
        exact mapped_active_ne db.reviews rid r hmem hact
      · intro pid l hl r hr
        unfold get_all_reviews_of_product at hl
        cases hfp : findActiveProduct db' pid with
        | none => rw [hfp] at hl; simp at hl
        | some p =>
            rw [hfp] at hl
            simp only [Except.ok.injEq] at hl
            rw [← hl] at hr
            obtain ⟨hmem, hcond⟩ := List.mem_filter.mp hr
            rw [hrev] at hmem
            exact mapped_active_ne db.reviews rid r hmem
              (Bool.and_elim_right hcond)

/-- Witness for C5: soft-deleting the only review of the one-review
store keeps the review count at one. -/
theorem c5_soft_delete_preserves_rows_witness :
    ([Review.mk 1 1 1 none 0 5 false] : List Review).length = dbQ.reviews.length :=
  (c5_soft_delete_preserves_rows dbQ uB 1 "Review deleted"
     (DB.mk [Review.mk 1 1 1 none 0 5 false] [Product.mk 1 true 0])
     (by simp [delete_review, findActiveReview, avgOrZero, activeGrades, setRating, dbQ, uB])).1

/-- C10: the global listing filters on the active flag only — an active
review shows up there even when its product is inactive — while the
per-product listing for that inactive product fails with NotFound. -/
theorem c10_global_listing_ignores_product_state :
    (∀ (db : DB) (r : Review), r ∈ db.reviews → r.is_active = true →
        r ∈ get_all_reviews db) ∧
    (∀ (db : DB) (pid : Nat), findActiveProduct db pid = none →
        get_all_reviews_of_product db pid = .error .notFound) := by
  constructor
  · intro db r hr hact
    exact List.mem_filter.mpr ⟨hr, hact⟩
  · intro db pid h
    unfold get_all_reviews_of_product
    rw [h]

/-- Witness for C10: in the store whose only product is inactive, the
active review appears in the global listing and the per-product listing
404s. -/
theorem c10_global_listing_ignores_product_state_witness :
    Review.mk 1 1 1 none 0 5 true ∈ get_all_reviews dbI ∧
    get_all_reviews_of_product dbI 1 = .error .notFound :=
  ⟨c10_global_listing_ignores_product_state.1 dbI (Review.mk 1 1 1 none 0 5 true)
     (by simp [dbI]) rfl,
   c10_global_listing_ignores_product_state.2 dbI 1 rfl⟩

/-- Keys of the modelled uuid supply are never the empty string. -/
theorem uuid4Supply_ne_empty (n : Nat) : uuid4Supply n ≠ "" := by
  intro h
  have h2 := congrArg String.length h
  simp [uuid4Supply, String.length] at h2

/-- Distinct calls draw distinct keys from the modelled uuid supply. -/
theorem uuid4Supply_injective (i j : Nat) (hij : i ≠ j) :
    uuid4Supply i ≠ uuid4Supply j := by
  intro h
  have h2 := congrArg String.length h
  simp [uuid4Supply, String.length] at h2
  exact hij h2

/-- The f-string rendering always carries the integer part, the dot and
exactly two fractional digits. -/
theorem fmt2_length (cents : Nat) :
    (fmt2 cents).length = (toString (cents / 100)).length + 3 := by
  have hd : cents % 100 < 100 := Nat.mod_lt _ (by norm_num)
  unfold fmt2
  by_cases h : cents % 100 < 10
  · rw [if_pos h]
    have h1 : (toString (cents % 100)).length = 1 := by
      have hall : ∀ d : Nat, d < 10 → (toString d).length = 1 := by decide
      exact hall _ h
    have hdot : (".").length = 1 := by decide
    have hzero : ("0").length = 1 := by decide
    simp only [String.length_append, h1]
    omega
  · rw [if_neg h]
    have h2 : (toString (cents % 100)).length = 2 := by
      have hall : ∀ d : Nat, d < 100 → 10 ≤ d → (toString d).length = 2 := by decide
      exact hall _ hd (Nat.le_of_not_lt h)
    have hdot : (".").length = 1 := by decide
    simp only [String.length_append, h2]
    omega

/-- C6: every call passes a freshly drawn uuid as the idempotency key:
the supply never repeats and never yields the empty string, so two
calls with identical order id, amount, email and description still
submit two different non-empty keys to the gateway. -/
theorem c6_fresh_idempotency_key_per_call :
    (∀ n : Nat, uuid4Supply n ≠ "") ∧
    (∀ i j : Nat, i ≠ j → uuid4Supply i ≠ uuid4Supply j) ∧
    (∀ (respond : PaymentPayload → String → GatewayResponse)
       (settings : PaymentSettings) (oid cents : Nat) (email desc : String) (i j : Nat),
        i ≠ j →
        pyFalsy settings.shop_id = false →
        pyFalsy settings.secret_key = false →
        (nth_payment_call respond settings oid cents email desc i).2.map Prod.snd
            = [uuid4Supply i] ∧
        (nth_payment_call respond settings oid cents email desc j).2.map Prod.snd
            = [uuid4Supply j] ∧
        uuid4Supply i ≠ uuid4Supply j ∧ uuid4Supply i ≠ "" ∧ uuid4Supply j ≠ "") := by
  refine ⟨uuid4Supply_ne_empty, uuid4Supply_injective, ?_⟩
  intro respond settings oid cents email desc i j hij hshop hkey
  refine ⟨?_, ?_, uuid4Supply_injective i j hij,
    uuid4Supply_ne_empty i, uuid4Supply_ne_empty j⟩
  · simp [nth_payment_call, create_yookassa_payment, hshop, hkey]
  · simp [nth_payment_call, create_yookassa_payment, hshop, hkey]

/-- Witness for C6: two calls with identical inputs (order 42, amount
100.00, email a@b.com) submit the distinct non-empty keys of draws 0
and 1. -/
theorem c6_fresh_idempotency_key_per_call_witness :
    (nth_payment_call respondStub settingsOk 42 10000 "a@b.com" "Order 42" 0).2.map Prod.snd
        = [uuid4Supply 0] ∧
    (nth_payment_call respondStub settingsOk 42 10000 "a@b.com" "Order 42" 1).2.map Prod.snd
        = [uuid4Supply 1] ∧
    uuid4Supply 0 ≠ uuid4Supply 1 ∧ uuid4Supply 0 ≠ "" ∧ uuid4Supply 1 ≠ "" :=
  c6_fresh_idempotency_key_per_call.2.2 respondStub settingsOk 42 10000
    "a@b.com" "Order 42" 0 1 (by decide) rfl rfl

/-- C7: with the shop id or the secret key unset or empty, payment
creation fails with the configuration error and the gateway-call trace
is empty — no payload was handed to the gateway, whatever the gateway
would have answered. -/
theorem c7_missing_credentials_fail_before_network :
    ∀ (respond : PaymentPayload → String → GatewayResponse)
      (settings : PaymentSettings) (oid cents : Nat) (email desc key : String),
      pyFalsy settings.shop_id = true ∨ pyFalsy settings.secret_key = true →
      create_yookassa_payment respond settings oid cents email desc key
        = (.error .configuration, []) := by
  intro respond settings oid cents email desc key h
  unfold create_yookassa_payment
  rcases h with h | h <;> simp [h]

/-- Witness for C7: with the shop id unset, the call errors out with an
empty gateway trace. -/
theorem c7_missing_credentials_fail_before_network_witness :
    create_yookassa_payment respondStub settingsNoShop 42 10000
        "a@b.com" "Order 42" "key-0"
      = (.error .configuration, []) :=
  c7_missing_credentials_fail_before_network respondStub settingsNoShop 42 10000
    "a@b.com" "Order 42" "key-0" (Or.inl rfl)

/-- C8: the payload's amount.value is the amount rendered as a fixed
2-decimal string with currency RUB, the single receipt line item
carries exactly the same money block, and amount 100.00 renders as
"100.00". -/
theorem c8_amount_rendered_two_decimals :
    (∀ (settings : PaymentSettings) (oid cents : Nat) (email desc : String),
        (buildPayload settings oid cents email desc).amount.value = fmt2 cents ∧
        (buildPayload settings oid cents email desc).amount.currency = "RUB" ∧
        (buildPayload settings oid cents email desc).receipt.items.map ReceiptItem.amount
          = [(buildPayload settings oid cents email desc).amount]) ∧
    (∀ cents : Nat, (fmt2 cents).length = (toString (cents / 100)).length + 3) ∧
    fmt2 10000 = "100.00" := by
  refine ⟨?_, fmt2_length, by decide⟩
  intro settings oid cents email desc
  exact ⟨rfl, rfl, rfl⟩

/-- C9: the receipt line item's description is the input description
truncated to its first 128 characters — the input itself whenever it is
128 characters or shorter. -/
theorem c9_receipt_description_truncated :
    (∀ (settings : PaymentSettings) (oid cents : Nat) (email desc : String),
        (buildPayload settings oid cents email desc).receipt.items.map ReceiptItem.description
          = [pySlice128 desc]) ∧
    (∀ s : String, (pySlice128 s).toList = s.toList.take 128) ∧
    (∀ s : String, s.toList.length ≤ 128 → pySlice128 s = s) ∧
    (∀ s : String, (pySlice128 s).toList.length = min 128 s.toList.length) := by
  refine ⟨fun _ _ _ _ _ => rfl, fun s => rfl, ?_, ?_⟩
  · intro s h
    unfold pySlice128
    rw [List.take_of_length_le h]
    cases s
    rfl
  · intro s
    unfold pySlice128
    exact List.length_take _ _

/-- Witness for C9: a short description passes through the truncation
unchanged. -/
theorem c9_receipt_description_truncated_witness :
    pySlice128 "Order 42" = "Order 42" :=
  c9_receipt_description_truncated.2.2.1 "Order 42" (by decide)
